import Mathlib

/-!
Verification of the Instance Arbitration & Process Supervision subsystem of
code-server, shallowly embedded from `src/node/entry.ts`.

The embedding models:
  * the parsed invocation (`Args`, from `./cli`'s `Args` as used by `entry.ts`);
  * the filesystem view used by `openInExistingInstance`'s `isDir` helper;
  * POSIX `path.resolve` against the (absolute) process working directory;
  * `openInExistingInstance` as a function from the invocation, the
    filesystem, and the socket's observable events to an outcome record
    (exit, connections opened, messages written, log entries, return value);
  * `runVsCodeCli` as a state machine folded over the forked subprocess's
    event stream (message / error / exit), mirroring the `once`/`on`
    handlers and the terminating effect of `process.exit`;
  * `shouldOpenInExistingInstance` over the process environment;
  * the `entry` arbitration as the ordered list of actions it performs.
-/

/-- Log levels used by the logger calls in `entry.ts`. -/
inductive LogLevel
  | debug
  | error
  deriving DecidableEq, Repr

/-- One log entry: level plus the literal message string from the source. -/
structure LogEntry where
  level : LogLevel
  msg : String
  deriving DecidableEq, Repr

/-- The slice of the parsed invocation (`Args` from `./cli`) that
`entry.ts` reads: positional paths (`args._`) and the boolean flags. -/
structure Args where
  positional : List String
  newWindow : Bool
  reuseWindow : Bool
  help : Bool
  version : Bool
  listExtensions : Bool
  installExtension : Bool
  uninstallExtension : Bool
  deriving DecidableEq, Repr

/-- Result of `fs.stat` on a path: a directory, some other existing entry
(regular file etc.), or absent (`stat` rejects). -/
inductive FileStat
  | directory
  | file
  | absent
  deriving DecidableEq, Repr

/-- A filesystem view: what `fs.stat` reports for each (resolved) path. -/
abbrev FileSystem : Type := String → FileStat

/-- The `isDir` helper of `openInExistingInstance`: true iff `fs.stat`
succeeds and reports a directory; a failing `stat` is caught and yields
false. -/
def isDir (fs : FileSystem) (p : String) : Bool :=
  match fs p with
  | .directory => true
  | .file => false
  | .absent => false

/-- Splitting a character list on the path separator, accumulating the
current component in reverse. -/
def splitSlashAux : List Char → List Char → List String
  | [], acc => [String.mk acc.reverse]
  | c :: rest, acc =>
    if c = '/' then String.mk acc.reverse :: splitSlashAux rest []
    else splitSlashAux rest (c :: acc)

/-- Path components of a POSIX path string: split on the separator and
drop empty components. -/
def pathComponents (s : String) : List String :=
  (splitSlashAux s.data []).filter (fun c => c != "")

/-- Whether a POSIX path string is absolute (begins with the separator). -/
def startsWithSlash (s : String) : Bool :=
  match s.data with
  | [] => false
  | c :: _ => c = '/'

/-- Normalization step of POSIX path resolution on an absolute path's
components: drop `.`, let `..` remove the previous component. -/
def normalizeComponents (comps : List String) : List String :=
  comps.foldl
    (fun acc c =>
      if c = "." then acc
      else if c = ".." then acc.dropLast
      else acc ++ [c])
    []

/-- Node's `path.resolve(p)` against the process working directory `cwd`
(`process.cwd()`, always an absolute path): an absolute `p` stands alone,
a relative `p` is joined onto `cwd`; the result is normalized and
absolute. -/
def resolve (cwd p : String) : String :=
  let raw := if startsWithSlash p then p else cwd ++ "/" ++ p
  "/" ++ String.intercalate "/" (normalizeComponents (pathComponents raw))

/-- One step of the classification loop in `openInExistingInstance`:
resolve the positional path and push it onto `folderURIs` if it is a
directory, otherwise onto `fileURIs`. -/
def classifyStep (fs : FileSystem) (cwd : String)
    (acc : List String × List String) (p : String) : List String × List String :=
  let fp := resolve cwd p
  if isDir fs fp then (acc.1 ++ [fp], acc.2) else (acc.1, acc.2 ++ [fp])

/-- The classification loop over `args._`, in order. -/
def classifyPaths (fs : FileSystem) (cwd : String) (paths : List String) :
    List String × List String :=
  paths.foldl (classifyStep fs cwd) ([], [])

/-- The `OpenCommandPipeArgs & \x7b fileURIs: string[] \x7d` record built by
`openInExistingInstance`. -/
structure OpenCommandMessage where
  type : String
  folderURIs : List String
  fileURIs : List String
  forceReuseWindow : Bool
  forceNewWindow : Bool
  deriving DecidableEq, Repr

/-- Construction of the pipe arguments in `openInExistingInstance`:
`type: "open"`, classified URI lists, and the two window flags copied from
the invocation. -/
def buildPipeArgs (fs : FileSystem) (cwd : String) (args : Args) : OpenCommandMessage :=
  let cls := classifyPaths fs cwd args.positional
  { type := "open"
    folderURIs := cls.1
    fileURIs := cls.2
    forceReuseWindow := args.reuseWindow
    forceNewWindow := args.newWindow }

/-- Error taxonomy of the spec (§7) for the fatal exits of the delegator.
`DelegationFailed` is listed by the spec but never produced by the code. -/
inductive ErrorKind
  | InvalidArgumentCombination
  | NoTargetSpecified
  | DelegationFailed
  deriving DecidableEq, Repr

/-- Observable events on the delegation socket after the request is made:
data received back on the response, or a transport-level error. -/
inductive SocketEvent
  | dataEvent (payload : String)
  | errorEvent (err : String)
  deriving DecidableEq, Repr

/-- What the handlers installed by `openInExistingInstance` log for each
socket event: response data is logged at debug level, a transport error at
error level; neither changes control flow. -/
def socketEventLog : SocketEvent → LogEntry
  | .dataEvent _ => ⟨.debug, "got message from VS Code"⟩
  | .errorEvent _ => ⟨.error, "got error from VS Code"⟩

/-- Outcome record of one run of `openInExistingInstance`: whether the
process exited fatally (error kind and exit code), how many socket
connections were opened, the messages written to the socket, the log
entries emitted, and the value returned (none if the process exited). -/
structure DelegateRun where
  exited : Option (ErrorKind × Nat)
  connections : Nat
  written : List OpenCommandMessage
  log : List LogEntry
  returned : Option Bool
  deriving DecidableEq, Repr

/-- Shallow embedding of `openInExistingInstance`: classify the positional
paths, run the two precondition checks (each logs and exits with code 1),
then open one connection to the socket, write the single serialized
message, log every event the socket produces, and return true. -/
def openInExistingInstance (fs : FileSystem) (cwd : String) (args : Args)
    (socketEvents : List SocketEvent) : DelegateRun :=
  let pipeArgs := buildPipeArgs fs cwd args
  if pipeArgs.forceNewWindow ∧ pipeArgs.fileURIs.length > 0 then
    { exited := some (.InvalidArgumentCombination, 1)
      connections := 0
      written := []
      log := [⟨.error, "--new-window can only be used with folder paths"⟩]
      returned := none }
  else if pipeArgs.folderURIs.length = 0 ∧ pipeArgs.fileURIs.length = 0 then
    { exited := some (.NoTargetSpecified, 1)
      connections := 0
      written := []
      log := [⟨.error, "Please specify at least one file or folder"⟩]
      returned := none }
  else
    { exited := none
      connections := 1
      written := [pipeArgs]
      log := socketEvents.map socketEventLog
      returned := some true }

/-- The `CliMessage` sent to the forked VS Code CLI subprocess:
`\x7b type: "cli", args \x7d`. -/
structure CliMessage where
  type : String
  args : Args
  deriving DecidableEq, Repr

/-- Observable events emitted by the forked subprocess, as seen by the
handlers in `runVsCodeCli`: an IPC message carrying a `type` discriminant,
a transport-level error event, or the exit event with an optional code. -/
inductive ChildEvent
  | message (type : String)
  | errorEvent (err : String)
  | exitEvent (code : Option Int)
  deriving DecidableEq, Repr

/-- State of the parent process while `runVsCodeCli`'s handlers run:
whether the `once("message")` and `once("error")` handlers have fired,
the messages sent to the subprocess, and the parent's exit code once
`process.exit` has been called (after which nothing further runs). -/
structure CliState where
  messageFired : Bool
  errorFired : Bool
  sent : List CliMessage
  exited : Option Int
  deriving DecidableEq, Repr

/-- One subprocess event handled by `runVsCodeCli`'s handlers. A state
with `exited` set is frozen (`process.exit` terminates the process). The
message handler is installed with `once`, so only the first message is
handled: a non-"ready" type exits with code 1, a "ready" type sends the
single `CliMessage`. The first error event exits with code 1. The exit
event exits with the subprocess's code, `code || 0`. -/
def cliStep (args : Args) (s : CliState) (e : ChildEvent) : CliState :=
  if s.exited.isSome then s
  else
    match e with
    | .message t =>
      if s.messageFired then s
      else if t != "ready" then { s with messageFired := true, exited := some 1 }
      else { s with messageFired := true, sent := s.sent ++ [⟨"cli", args⟩] }
    | .errorEvent _ =>
      if s.errorFired then s
      else { s with errorFired := true, exited := some 1 }
    | .exitEvent code => { s with exited := some (code.getD 0) }

/-- Initial state right after `cp.fork`: no handler fired, nothing sent,
parent still running. -/
def cliInit : CliState := ⟨false, false, [], none⟩

/-- Shallow embedding of `runVsCodeCli`: fold the handlers over the
subprocess's event stream. -/
def runVsCodeCli (args : Args) (events : List ChildEvent) : CliState :=
  events.foldl (cliStep args) cliInit

/-- The process environment read by `entry.ts`: the
`VSCODE_IPC_HOOK_CLI` variable (socket/pipe address of a controlling
instance) and the child-role signal consulted via `ipcMain.isChild`. -/
structure ProcEnv where
  vscodeIpcHookCli : Option String
  isChild : Bool
  deriving DecidableEq, Repr

/-- Shallow embedding of `shouldOpenInExistingInstance`: return
`VSCODE_IPC_HOOK_CLI` when it is set to a truthy (non-empty) string;
every later probe step of the source is an unimplemented TODO, so
otherwise the probe returns `undefined`. -/
def shouldOpenInExistingInstance (env : ProcEnv) (_args : Args) : Option String :=
  match env.vscodeIpcHookCli with
  | some s => if s != "" then some s else none
  | none => none

/-- Shallow embedding of `shouldRunVsCodeCli`: any of the three
extension-management flags selects the CLI subprocess path. -/
def shouldRunVsCodeCli (args : Args) : Bool :=
  args.listExtensions || args.installExtension || args.uninstallExtension

/-- The externally visible actions `entry` can perform, in order. -/
inductive EntryAction
  | handshake
  | preventExit
  | runMain
  | printUsage
  | printVersion
  | forkVsCodeCli
  | probeExisting
  | delegateToExisting (socketPath : String)
  | startWrapper
  deriving DecidableEq, Repr

/-- Shallow embedding of `entry` as the ordered list of actions it
performs: child role short-circuits to handshake, preventExit and the
main body; otherwise `--help`, then `--version`, then the CLI-operation
test, then the existing-instance probe, whose result selects delegation
(not awaited, its outcome unobserved) or starting the wrapper. -/
def entryTrace (env : ProcEnv) (args : Args) : List EntryAction :=
  if env.isChild then [.handshake, .preventExit, .runMain]
  else if args.help then [.printUsage]
  else if args.version then [.printVersion]
  else if shouldRunVsCodeCli args then [.forkVsCodeCli]
  else
    match shouldOpenInExistingInstance env args with
    | some socketPath => [.probeExisting, .delegateToExisting socketPath]
    | none => [.probeExisting, .startWrapper]

/-- A sample filesystem: `/tmp/proj` is a directory, `/tmp/a.txt` a
regular file, every other path is absent (`stat` rejects). -/
def fsEx : FileSystem := fun p =>
  if p = "/tmp/proj" then FileStat.directory
  else if p = "/tmp/a.txt" then FileStat.file
  else FileStat.absent

/-- An invocation with no positional paths and every flag off. -/
def baseArgs : Args :=
  { positional := []
    newWindow := false
    reuseWindow := false
    help := false
    version := false
    listExtensions := false
    installExtension := false
    uninstallExtension := false }

/-- An invocation naming one directory path. -/
def argsProj : Args := { baseArgs with positional := ["/tmp/proj"] }

/-- An invocation combining `--new-window` with a file path. -/
def argsNewFile : Args :=
  { baseArgs with positional := ["/tmp/a.txt"], newWindow := true }

/-- An invocation with `--help` set together with an extension-management
flag, the version flag and a positional path. -/
def argsHelpBusy : Args :=
  { baseArgs with
    positional := ["/tmp/a.txt"], help := true, version := true, installExtension := true }

/-- An invocation with `--version` set together with an
extension-management flag. -/
def argsVersionBusy : Args := { baseArgs with version := true, installExtension := true }

/-- An environment carrying the controlling-instance hook, not in child
role. -/
def envHook : ProcEnv := ⟨some "/run/user/code.sock", false⟩

/-- An environment with no hook, not in child role. -/
def envPlain : ProcEnv := ⟨none, false⟩

/-- An environment in child role. -/
def envChild : ProcEnv := ⟨none, true⟩

/-- Unfolding the classification loop: the fold over `classifyStep`
appends, in positional order, the directory-classified resolved paths to
the folder accumulator and the rest to the file accumulator. -/
theorem foldl_classifyStep_eq (fs : FileSystem) (cwd : String) (paths : List String) :
    ∀ fo fi : List String,
      paths.foldl (classifyStep fs cwd) (fo, fi) =
        (fo ++ (paths.map (resolve cwd)).filter (fun q => isDir fs q),
         fi ++ (paths.map (resolve cwd)).filter (fun q => !(isDir fs q))) := by
  induction paths with
  | nil => intro fo fi; simp
  | cons p rest ih =>
    intro fo fi
    by_cases h : isDir fs (resolve cwd p) = true
    · simp [classifyStep, h, ih]
    · rw [Bool.not_eq_true] at h
      simp [classifyStep, h, ih]

/-- The classification of `args._` as two filters of the resolved paths. -/
theorem classifyPaths_eq (fs : FileSystem) (cwd : String) (paths : List String) :
    classifyPaths fs cwd paths =
      ((paths.map (resolve cwd)).filter (fun q => isDir fs q),
       (paths.map (resolve cwd)).filter (fun q => !(isDir fs q))) := by
  simpa [classifyPaths] using foldl_classifyStep_eq fs cwd paths [] []

/-- The folder list of the constructed message. -/
theorem buildPipeArgs_folderURIs (fs : FileSystem) (cwd : String) (args : Args) :
    (buildPipeArgs fs cwd args).folderURIs =
      (args.positional.map (resolve cwd)).filter (fun q => isDir fs q) := by
  simp [buildPipeArgs, classifyPaths_eq]

/-- The file list of the constructed message. -/
theorem buildPipeArgs_fileURIs (fs : FileSystem) (cwd : String) (args : Args) :
    (buildPipeArgs fs cwd args).fileURIs =
      (args.positional.map (resolve cwd)).filter (fun q => !(isDir fs q)) := by
  simp [buildPipeArgs, classifyPaths_eq]

/-- Once `process.exit` has been called, no further subprocess event
changes the parent's state. -/
theorem foldl_cliStep_frozen (args : Args) (events : List ChildEvent) :
    ∀ s : CliState, s.exited.isSome = true → events.foldl (cliStep args) s = s := by
  induction events with
  | nil => intro s _; rfl
  | cons e rest ih =>
    intro s hs
    have h1 : cliStep args s e = s := by simp [cliStep, hs]
    rw [List.foldl_cons, h1]
    exact ih s hs

/-- After the once-installed message handler has fired, no further event
appends to the list of messages sent to the subprocess. -/
theorem foldl_cliStep_sent_stable (args : Args) (events : List ChildEvent) :
    ∀ s : CliState, s.messageFired = true →
      (events.foldl (cliStep args) s).sent = s.sent ∧
      (events.foldl (cliStep args) s).messageFired = true := by
  induction events with
  | nil => intro s hm; exact ⟨rfl, hm⟩
  | cons e rest ih =>
    intro s hm
    have hstep : (cliStep args s e).sent = s.sent ∧ (cliStep args s e).messageFired = true := by
      by_cases hex : s.exited.isSome = true
      · simp [cliStep, hex]
        exact hm
      · rw [Bool.not_eq_true] at hex
        cases e with
        | message t => simp [cliStep, hex, hm]
        | errorEvent err =>
          by_cases herr : s.errorFired = true
          · simp [cliStep, hex, herr]
            exact hm
          · rw [Bool.not_eq_true] at herr
            simp [cliStep, hex, herr]
            exact hm
        | exitEvent code =>
          simp [cliStep, hex]
          exact hm
    rw [List.foldl_cons]
    have hres := ih (cliStep args s e) hstep.2
    exact ⟨hres.1.trans hstep.1, hres.2⟩

/-- When both precondition checks pass, the delegator opens one
connection, writes the single message, maps every socket event to a log
entry, and returns true. -/
theorem openInExistingInstance_success (fs : FileSystem) (cwd : String) (args : Args)
    (events : List SocketEvent)
    (hpre1 : args.newWindow = false ∨ (buildPipeArgs fs cwd args).fileURIs = [])
    (hpre2 : ¬((buildPipeArgs fs cwd args).folderURIs = [] ∧
               (buildPipeArgs fs cwd args).fileURIs = [])) :
    openInExistingInstance fs cwd args events =
      { exited := none
        connections := 1
        written := [buildPipeArgs fs cwd args]
        log := events.map socketEventLog
        returned := some true } := by
  have hfn : (buildPipeArgs fs cwd args).forceNewWindow = args.newWindow := rfl
  have h1 : ¬((buildPipeArgs fs cwd args).forceNewWindow = true ∧
      (buildPipeArgs fs cwd args).fileURIs.length > 0) := by
    rintro ⟨ha, hb⟩
    rcases hpre1 with h | h
    · rw [hfn, h] at ha
      exact Bool.false_ne_true ha
    · rw [h] at hb
      exact Nat.lt_irrefl 0 hb
  have h2 : ¬((buildPipeArgs fs cwd args).folderURIs.length = 0 ∧
      (buildPipeArgs fs cwd args).fileURIs.length = 0) := by
    rintro ⟨ha, hb⟩
    exact hpre2 ⟨List.length_eq_zero.mp ha, List.length_eq_zero.mp hb⟩
  simp only [openInExistingInstance]
  rw [if_neg h1, if_neg h2]

/-- C2: for every invocation delegated with `--new-window` set and at
least one positional path classified as a file, `openInExistingInstance`
logs the `--new-window can only be used with folder paths` error and
exits the process with code 1 (`InvalidArgumentCombination`), opening no
socket connection and writing no message, independently of whatever the
socket would have produced. -/
theorem newWindowWithFileRejected (fs : FileSystem) (cwd : String) (args : Args)
    (events : List SocketEvent) (hnw : args.newWindow = true)
    (hfile : ∃ p ∈ args.positional, isDir fs (resolve cwd p) = false) :
    openInExistingInstance fs cwd args events =
      { exited := some (ErrorKind.InvalidArgumentCombination, 1)
        connections := 0
        written := []
        log := [⟨.error, "--new-window can only be used with folder paths"⟩]
        returned := none } := by
  obtain ⟨p, hmem, hnd⟩ := hfile
  have hin : resolve cwd p ∈ (buildPipeArgs fs cwd args).fileURIs := by
    rw [buildPipeArgs_fileURIs]
    exact List.mem_filter.mpr ⟨List.mem_map_of_mem _ hmem, by simp [hnd]⟩
  have hlen : (buildPipeArgs fs cwd args).fileURIs.length > 0 :=
    List.length_pos.mpr (List.ne_nil_of_mem hin)
  have hfn : (buildPipeArgs fs cwd args).forceNewWindow = true := hnw
  simp only [openInExistingInstance]
  rw [if_pos ⟨hfn, hlen⟩]

/-- Witness for C2 at a concrete invocation: `--new-window` together with
the file path `/tmp/a.txt`. -/
theorem newWindowWithFileRejectedWitness :
    openInExistingInstance fsEx "/" argsNewFile [] =
      { exited := some (ErrorKind.InvalidArgumentCombination, 1)
        connections := 0
        written := []
        log := [⟨.error, "--new-window can only be used with folder paths"⟩]
        returned := none } :=
  newWindowWithFileRejected fsEx "/" argsNewFile [] rfl
    ⟨"/tmp/a.txt", by decide, by decide⟩

/-- C3: when the positional paths of a delegated invocation resolve to no
folder identifier and no file identifier, `openInExistingInstance` logs
the `Please specify at least one file or folder` error and exits the
process with code 1 (`NoTargetSpecified`), opening no connection and
transmitting no message. -/
theorem noTargetRejected (fs : FileSystem) (cwd : String) (args : Args)
    (events : List SocketEvent)
    (hfo : (buildPipeArgs fs cwd args).folderURIs = [])
    (hfi : (buildPipeArgs fs cwd args).fileURIs = []) :
    openInExistingInstance fs cwd args events =
      { exited := some (ErrorKind.NoTargetSpecified, 1)
        connections := 0
        written := []
        log := [⟨.error, "Please specify at least one file or folder"⟩]
        returned := none } := by
  have h1 : ¬((buildPipeArgs fs cwd args).forceNewWindow = true ∧
      (buildPipeArgs fs cwd args).fileURIs.length > 0) := by
    rintro ⟨-, hb⟩
    rw [hfi] at hb
    exact Nat.lt_irrefl 0 hb
  have h2 : (buildPipeArgs fs cwd args).folderURIs.length = 0 ∧
      (buildPipeArgs fs cwd args).fileURIs.length = 0 := by
    rw [hfo, hfi]
    exact ⟨rfl, rfl⟩
  simp only [openInExistingInstance]
  rw [if_neg h1, if_pos h2]

/-- Witness for C3 at a concrete invocation with no positional paths. -/
theorem noTargetRejectedWitness :
    openInExistingInstance fsEx "/" baseArgs [] =
      { exited := some (ErrorKind.NoTargetSpecified, 1)
        connections := 0
        written := []
        log := [⟨.error, "Please specify at least one file or folder"⟩]
        returned := none } :=
  noTargetRejected fsEx "/" baseArgs [] (by decide) (by decide)

/-- C4: the message built for delegation has kind "open"; its folder list
is exactly the resolved positional paths whose stat reports a directory,
in positional order, and its file list is exactly the remaining resolved
positional paths (existing non-directories and paths whose stat fails),
in positional order; the classification test is the filesystem type
check, and every resolved path is absolute. -/
theorem delegatedMessageClassification (fs : FileSystem) (cwd : String) (args : Args) :
    (buildPipeArgs fs cwd args).type = "open" ∧
    (buildPipeArgs fs cwd args).folderURIs =
      (args.positional.map (resolve cwd)).filter (fun q => isDir fs q) ∧
    (buildPipeArgs fs cwd args).fileURIs =
      (args.positional.map (resolve cwd)).filter (fun q => !(isDir fs q)) ∧
    (∀ q, isDir fs q = true ↔ fs q = FileStat.directory) ∧
    (∀ p : String, ∃ rest : String, resolve cwd p = "/" ++ rest) := by
  refine ⟨rfl, buildPipeArgs_folderURIs fs cwd args, buildPipeArgs_fileURIs fs cwd args,
    fun q => ?_, fun p => ⟨_, rfl⟩⟩
  cases h : fs q <;> simp [isDir, h]

/-- C5 counterexample: a subprocess that exits with code 3 without ever
sending a message causes the parent to exit with code 3, not with code 1
as the claim states. -/
theorem silentChildExitCounterexample :
    (runVsCodeCli baseArgs [ChildEvent.exitEvent (some 3)]).exited = some 3 ∧
    ¬(runVsCodeCli baseArgs [ChildEvent.exitEvent (some 3)]).exited = some 1 := by
  decide

/-- C5 (amended): a CLI-delegate subprocess that exits without ever
having sent a ReadyMessage causes the parent process to exit with the
subprocess's own exit code (0 when none is reported), with no message
forwarded; no further event is processed afterwards. -/
theorem silentChildExitPropagatesCode (args : Args) (code : Option Int)
    (rest : List ChildEvent) :
    (runVsCodeCli args (ChildEvent.exitEvent code :: rest)).exited = some (code.getD 0) ∧
    (runVsCodeCli args (ChildEvent.exitEvent code :: rest)).sent = [] := by
  have h1 : cliStep args cliInit (ChildEvent.exitEvent code) =
      { cliInit with exited := some (code.getD 0) } := by
    simp [cliStep, cliInit]
  have h2 : ({ cliInit with exited := some (code.getD 0) } : CliState).exited.isSome = true := by
    simp
  unfold runVsCodeCli
  rw [List.foldl_cons, h1, foldl_cliStep_frozen args rest _ h2]
  exact ⟨rfl, rfl⟩

/-- C6: in the CLI delegate, a first message of kind "ready" makes the
parent send exactly one CliForwardMessage carrying the invocation's
arguments; a first message of any other kind exits with code 1; a
transport-level error event exits with code 1; and the subprocess's exit
event makes the parent exit with the subprocess's exit code, defaulting
to 0 when none is reported. -/
theorem cliDelegateEventBehavior (args : Args) (rest : List ChildEvent) :
    (runVsCodeCli args (ChildEvent.message "ready" :: rest)).sent = [⟨"cli", args⟩] ∧
    (∀ t, t ≠ "ready" →
      (runVsCodeCli args (ChildEvent.message t :: rest)).exited = some 1 ∧
      (runVsCodeCli args (ChildEvent.message t :: rest)).sent = []) ∧
    (∀ e, (runVsCodeCli args (ChildEvent.errorEvent e :: rest)).exited = some 1) ∧
    (∀ code,
      (runVsCodeCli args (ChildEvent.exitEvent code :: rest)).exited = some (code.getD 0)) := by
  refine ⟨?_, fun t ht => ?_, fun e => ?_, fun code => ?_⟩
  · have h1 : cliStep args cliInit (ChildEvent.message "ready") =
        { messageFired := true, errorFired := false, sent := [⟨"cli", args⟩], exited := none } := by
      simp [cliStep, cliInit]
    unfold runVsCodeCli
    rw [List.foldl_cons, h1]
    exact (foldl_cliStep_sent_stable args rest _ rfl).1
  · have h1 : cliStep args cliInit (ChildEvent.message t) =
        { cliInit with messageFired := true, exited := some 1 } := by
      simp [cliStep, cliInit, ht]
    unfold runVsCodeCli
    rw [List.foldl_cons, h1, foldl_cliStep_frozen args rest _ (by simp)]
    exact ⟨rfl, rfl⟩
  · have h1 : cliStep args cliInit (ChildEvent.errorEvent e) =
        { cliInit with errorFired := true, exited := some 1 } := by
      simp [cliStep, cliInit]
    unfold runVsCodeCli
    rw [List.foldl_cons, h1, foldl_cliStep_frozen args rest _ (by simp)]
  · have h1 : cliStep args cliInit (ChildEvent.exitEvent code) =
        { cliInit with exited := some (code.getD 0) } := by
      simp [cliStep, cliInit]
    unfold runVsCodeCli
    rw [List.foldl_cons, h1, foldl_cliStep_frozen args rest _ (by simp)]

/-- Witness for C6: a first message of kind "cli" (not "ready") exits the
parent with code 1 and nothing is forwarded. -/
theorem cliDelegateEventBehaviorWitness :
    (runVsCodeCli baseArgs [ChildEvent.message "cli"]).exited = some 1 ∧
    (runVsCodeCli baseArgs [ChildEvent.message "cli"]).sent = [] :=
  (cliDelegateEventBehavior baseArgs []).2.1 "cli" (by decide)

/-- C7: the existing-instance probe returns the address carried by the
`VSCODE_IPC_HOOK_CLI` environment signal whenever that signal is present
(set to a non-empty address), regardless of the invocation; when the
signal is absent (or empty) no candidate is found — every other probe
step of the source is an unimplemented no-op — and the probe returns
none. -/
theorem probeEnvSignal (env : ProcEnv) (args : Args) :
    (∀ s, env.vscodeIpcHookCli = some s → s ≠ "" →
      shouldOpenInExistingInstance env args = some s) ∧
    ((env.vscodeIpcHookCli = none ∨ env.vscodeIpcHookCli = some "") →
      shouldOpenInExistingInstance env args = none) := by
  constructor
  · intro s hs hne
    simp [shouldOpenInExistingInstance, hs, hne]
  · rintro (h | h) <;> simp [shouldOpenInExistingInstance, h]

/-- Witness for C7 at a concrete environment carrying the hook. -/
theorem probeEnvSignalWitness :
    shouldOpenInExistingInstance envHook baseArgs = some "/run/user/code.sock" :=
  (probeEnvSignal envHook baseArgs).1 "/run/user/code.sock" rfl (by decide)

/-- C8: in child role, `entry` performs exactly the handshake, the
preventExit guard registration and then the main body, in that order, and
none of the Arbitrator steps (help, version, CLI delegation,
existing-instance probe or delegation, wrapper start) appears. -/
theorem childRoleHandshakeBehavior (env : ProcEnv) (args : Args)
    (hchild : env.isChild = true) :
    entryTrace env args = [.handshake, .preventExit, .runMain] ∧
    EntryAction.printUsage ∉ entryTrace env args ∧
    EntryAction.printVersion ∉ entryTrace env args ∧
    EntryAction.forkVsCodeCli ∉ entryTrace env args ∧
    EntryAction.probeExisting ∉ entryTrace env args ∧
    (∀ s, EntryAction.delegateToExisting s ∉ entryTrace env args) ∧
    EntryAction.startWrapper ∉ entryTrace env args := by
  have h : entryTrace env args = [.handshake, .preventExit, .runMain] := by
    simp [entryTrace, hchild]
  refine ⟨h, ?_, ?_, ?_, ?_, fun s => ?_, ?_⟩ <;> rw [h] <;> simp

/-- Witness for C8 at a concrete child-role environment. -/
theorem childRoleHandshakeBehaviorWitness :
    entryTrace envChild baseArgs = [.handshake, .preventExit, .runMain] :=
  (childRoleHandshakeBehavior envChild baseArgs rfl).1

/-- C9: once both precondition checks pass, the delegator opens exactly
one connection to the socket, writes exactly one OpenCommandMessage, and
returns true as soon as the write completes; the socket's subsequent
events (data received back, even transport errors) are each mapped to a
log entry and never change the outcome. -/
theorem delegatorFireAndForget (fs : FileSystem) (cwd : String) (args : Args)
    (events : List SocketEvent)
    (hpre1 : args.newWindow = false ∨ (buildPipeArgs fs cwd args).fileURIs = [])
    (hpre2 : ¬((buildPipeArgs fs cwd args).folderURIs = [] ∧
               (buildPipeArgs fs cwd args).fileURIs = [])) :
    openInExistingInstance fs cwd args events =
      { exited := none
        connections := 1
        written := [buildPipeArgs fs cwd args]
        log := events.map socketEventLog
        returned := some true } :=
  openInExistingInstance_success fs cwd args events hpre1 hpre2

/-- Witness for C9 at a concrete invocation naming one directory, with
data received back from the remote instance. -/
theorem delegatorFireAndForgetWitness :
    openInExistingInstance fsEx "/" argsProj [SocketEvent.dataEvent "ok"] =
      { exited := none
        connections := 1
        written := [buildPipeArgs fsEx "/" argsProj]
        log := [SocketEvent.dataEvent "ok"].map socketEventLog
        returned := some true } :=
  delegatorFireAndForget fsEx "/" argsProj [SocketEvent.dataEvent "ok"]
    (Or.inl rfl) (by decide)

/-- C10: with child role off and `--help` set, `entry` prints usage and
returns, performing no CLI fork, no probe, no delegation and no wrapper
start, whatever the other flags and positional paths are; with `--help`
off and `--version` set the trace is exactly the version printout, even
when an extension-management flag would select the CLI path, showing the
version check precedes the CLI-operation test. -/
theorem helpVersionShortCircuit (env : ProcEnv) (args : Args)
    (hchild : env.isChild = false) :
    (args.help = true →
      entryTrace env args = [.printUsage] ∧
      EntryAction.forkVsCodeCli ∉ entryTrace env args ∧
      EntryAction.probeExisting ∉ entryTrace env args ∧
      (∀ s, EntryAction.delegateToExisting s ∉ entryTrace env args) ∧
      EntryAction.startWrapper ∉ entryTrace env args) ∧
    (args.help = false → args.version = true → entryTrace env args = [.printVersion]) := by
  constructor
  · intro hhelp
    have h : entryTrace env args = [.printUsage] := by
      simp [entryTrace, hchild, hhelp]
    refine ⟨h, ?_, ?_, fun s => ?_, ?_⟩ <;> rw [h] <;> simp
  · intro hhelp hver
    simp [entryTrace, hchild, hhelp, hver]

/-- Witness for C10: `--help` wins over an extension-management flag, the
version flag and a positional path; `--version` wins over an
extension-management flag. -/
theorem helpVersionShortCircuitWitness :
    entryTrace envPlain argsHelpBusy = [.printUsage] ∧
    entryTrace envPlain argsVersionBusy = [.printVersion] :=
  ⟨((helpVersionShortCircuit envPlain argsHelpBusy rfl).1 rfl).1,
   (helpVersionShortCircuit envPlain argsVersionBusy rfl).2 rfl rfl⟩

/-- C1 counterexample: with the controlling-instance hook set and one
directory path, a connection-refused transport error leaves the delegator
reporting success (it returns true and does not exit), and `entry` never
starts a new instance: its trace is the probe followed by the delegation,
with no wrapper start. -/
theorem delegationTransportErrorCounterexample :
    (openInExistingInstance fsEx "/" argsProj
        [SocketEvent.errorEvent "ECONNREFUSED"]).exited = none ∧
    (openInExistingInstance fsEx "/" argsProj
        [SocketEvent.errorEvent "ECONNREFUSED"]).returned = some true ∧
    EntryAction.startWrapper ∉ entryTrace envHook argsProj := by
  decide

/-- C1 (amended): a transport-level error while transmitting the
OpenCommandMessage is logged at error level and no exception escapes: the
delegator still returns true with the message written, and the Arbitrator
does not fall back — after a successful probe the entry trace is exactly
probe then delegation, with no new-instance start. -/
theorem transportErrorLoggedNoFallback (fs : FileSystem) (cwd : String) (args : Args)
    (env : ProcEnv) (s e : String) (events : List SocketEvent)
    (hpre1 : args.newWindow = false ∨ (buildPipeArgs fs cwd args).fileURIs = [])
    (hpre2 : ¬((buildPipeArgs fs cwd args).folderURIs = [] ∧
               (buildPipeArgs fs cwd args).fileURIs = []))
    (herr : SocketEvent.errorEvent e ∈ events)
    (hchild : env.isChild = false) (hhelp : args.help = false)
    (hver : args.version = false) (hcli : shouldRunVsCodeCli args = false)
    (hhook : env.vscodeIpcHookCli = some s) (hs : s ≠ "") :
    (openInExistingInstance fs cwd args events).returned = some true ∧
    (openInExistingInstance fs cwd args events).exited = none ∧
    LogEntry.mk .error "got error from VS Code" ∈ (openInExistingInstance fs cwd args events).log ∧
    entryTrace env args = [.probeExisting, .delegateToExisting s] ∧
    EntryAction.startWrapper ∉ entryTrace env args := by
  have hrun := openInExistingInstance_success fs cwd args events hpre1 hpre2
  have hprobe : shouldOpenInExistingInstance env args = some s := by
    simp [shouldOpenInExistingInstance, hhook, hs]
  have htrace : entryTrace env args = [.probeExisting, .delegateToExisting s] := by
    simp [entryTrace, hchild, hhelp, hver, hcli, hprobe]
  refine ⟨by rw [hrun], by rw [hrun], ?_, htrace, by rw [htrace]; simp⟩
  rw [hrun]
  exact List.mem_map_of_mem socketEventLog herr

/-- Witness for the amended C1 at a concrete unreachable socket: the hook
points at a socket whose connection is refused. -/
theorem transportErrorLoggedNoFallbackWitness :
    (openInExistingInstance fsEx "/" argsProj
        [SocketEvent.errorEvent "ECONNREFUSED"]).returned = some true ∧
    (openInExistingInstance fsEx "/" argsProj
        [SocketEvent.errorEvent "ECONNREFUSED"]).exited = none ∧
    LogEntry.mk .error "got error from VS Code" ∈
      (openInExistingInstance fsEx "/" argsProj
        [SocketEvent.errorEvent "ECONNREFUSED"]).log ∧
    entryTrace envHook argsProj =
      [.probeExisting, .delegateToExisting "/run/user/code.sock"] ∧
    EntryAction.startWrapper ∉ entryTrace envHook argsProj :=
  transportErrorLoggedNoFallback fsEx "/" argsProj envHook "/run/user/code.sock"
    "ECONNREFUSED" [SocketEvent.errorEvent "ECONNREFUSED"]
    (Or.inl rfl) (by decide) (by decide) rfl rfl rfl rfl rfl (by decide)
